import Mathlib

/-!
Verification of the conversation-turn / function-calling exchange of the
`gemini_function_calling` Home Assistant custom integration
(`custom_components/gemini_function_calling/__init__.py`).

The heart of the integration is `GoogleGenerativeAIAgent.async_process`,
which handles one conversation turn: resolve the per-conversation history,
render the system prompt template, send the user text to the remote model,
optionally dispatch one of two hard-coded host service calls according to a
function call found in the model's reply, send a synthetic function-response
message back, and return the final text.

External collaborators (the remote model client, the template engine, the
ULID generator) are modelled as an oracle `Env` supplying, for the one turn
under study, the rendered prompt (or a template error), the fresh
conversation id, and the outcome of each of the two chat sends.  Host
service dispatches and messages sent to the remote model are recorded as
output lists.  Python's in-place list aliasing (`messages =
self.history[conversation_id]` followed by `messages[0] = ...`) is modelled
explicitly: for an existing conversation the stored history list is the
very list being overwritten at slots 0 and 1.
-/

namespace GeminiFC

/-- A value appearing in a function call's argument map or in service call
data: the integration only ever handles strings and integers
(`command : String`, `cool_temp`/`heat_temp : Int`). -/
inductive ArgVal where
  | s (v : String)
  | i (v : Int)
deriving DecidableEq, Repr

/-- One content part of a model message, mirroring `glm.Part`: plain text,
a structured function call, or a function response. -/
inductive Part where
  | text (s : String)
  | functionCall (name : String) (args : List (String × ArgVal))
  | functionResponse (name : String) (response : String)
deriving DecidableEq, Repr

/-- One chat message, mirroring `glm.Content`: a role and a list of parts. -/
structure Content where
  role : String
  parts : List Part
deriving DecidableEq, Repr

/-- A function call extracted from a response part, mirroring
`glm.FunctionCall` (`fc.name`, `fc.args`). -/
structure FunctionCall where
  name : String
  args : List (String × ArgVal)
deriving DecidableEq, Repr

/-- One candidate of a model response (`chat_response.candidates[i]`). -/
structure Candidate where
  content : Content
deriving DecidableEq, Repr

/-- A model response (`chat_response`). -/
structure Response where
  candidates : List Candidate
deriving DecidableEq, Repr

/-- The recognized failure kinds of a remote send, the four exception
classes caught around the first `send_message_async`: `ClientError`,
`ValueError`, `BlockedPromptException`, `StopCandidateException`. -/
inductive GenFailureKind where
  | clientError
  | valueError
  | blockedPrompt
  | stopCandidate
deriving DecidableEq, Repr

/-- A remote-send failure: its kind and its message (the `{err}` text
interpolated into the user-visible error). -/
structure GenFailure where
  kind : GenFailureKind
  msg : String
deriving DecidableEq, Repr

/-- A template rendering failure (`TemplateError`). -/
structure TemplateErr where
  msg : String
deriving DecidableEq, Repr

/-- An exception that `async_process` does not catch and therefore
propagates to the caller. -/
inductive RaisedExc where
  | genFailure (f : GenFailure)
  | indexError
  | keyError
deriving DecidableEq, Repr

/-- The agent's mutable state: `self.history`, a mapping from conversation
id to stored message history, modelled as an association list. -/
structure AgentState where
  history : List (String × List Content)
deriving DecidableEq, Repr

/-- One processed conversation input (`conversation.ConversationInput`):
the fields `async_process` reads. -/
structure ConvInput where
  conversation_id : Option String
  text : String
  language : String
deriving DecidableEq, Repr

/-- The oracle for the turn's external calls: the fresh ULID that would be
minted, the outcome of rendering the prompt template, and the outcomes of
the two `send_message_async` calls. -/
structure Env where
  freshId : String
  renderedPrompt : Except TemplateErr String
  send1 : Except GenFailure Response
  send2 : Except GenFailure Response

/-- The model of `intent.IntentResponse`: `async_set_error` fills `error`
with (error code, message); `async_set_speech` fills `speech`. -/
structure IntentResponse where
  language : String
  error : Option (String × String)
  speech : Option String
deriving DecidableEq, Repr

/-- The model of `conversation.ConversationResult`. -/
structure ConversationResult where
  response : IntentResponse
  conversation_id : String
deriving DecidableEq, Repr

/-- How the turn ends: a returned `ConversationResult`, or an uncaught
exception propagating to the caller. -/
inductive ProcReturn where
  | result (r : ConversationResult)
  | raised (e : RaisedExc)
deriving DecidableEq, Repr

/-- A message sent to the remote model during the turn: the user text of
the first send, or the synthetic content of the second send. -/
inductive SentMsg where
  | userText (s : String)
  | content (c : Content)
deriving DecidableEq, Repr

/-- A dispatched host service call: the arguments of
`hass.services.async_call(domain, service, data, blocking)`. -/
structure ServiceCallRec where
  domain : String
  service : String
  data : List (String × ArgVal)
  blocking : Bool
deriving DecidableEq, Repr

/-- Everything observable about one turn: how it ended, the agent state it
left behind, the host service calls dispatched, and the messages sent to
the remote model, in order. -/
structure TurnOutput where
  result : ProcReturn
  state : AgentState
  calls : List ServiceCallRec
  sent : List SentMsg
deriving DecidableEq, Repr

/-- Association-list lookup for the history mapping (`cid in self.history`,
`self.history[cid]`). -/
def histGet : List (String × List Content) → String → Option (List Content)
  | [], _ => none
  | (k, v) :: rest, key => if k = key then some v else histGet rest key

/-- Association-list update for the history mapping
(`self.history[cid] = ...`): replace the existing binding or append. -/
def histSet : List (String × List Content) → String → List Content →
    List (String × List Content)
  | [], key, v => [(key, v)]
  | (k, w) :: rest, key, v =>
    if k = key then (key, v) :: rest else (k, w) :: histSet rest key v

/-- Lookup in a function call's argument map (`fc.args["command"]` etc.);
`none` models the `KeyError` a missing key raises. -/
def lookupArg : List (String × ArgVal) → String → Option ArgVal
  | [], _ => none
  | (k, v) :: rest, key => if k = key then some v else lookupArg rest key

/-- The empty `{}` placeholder content of a fresh two-slot history. -/
def emptyContent : Content := ⟨"", []⟩

/-- The rendered system prompt as stored in history slot 0:
`{"role": "user", "parts": prompt}`. -/
def promptContent (prompt : String) : Content := ⟨"user", [Part.text prompt]⟩

/-- The acknowledgement stored in history slot 1:
`{"role": "model", "parts": "Ok"}`. -/
def ackContent : Content := ⟨"model", [Part.text "Ok"]⟩

/-- The user's message as it enters the chat transcript. -/
def userContent (text : String) : Content := ⟨"user", [Part.text text]⟩

/-- The resolved session of a turn: the conversation id to use, the
history list to build on, and whether it is the stored list of an existing
conversation (in which case writes to it alias the store). -/
structure Session where
  cid : String
  messages : List Content
  isExisting : Bool
deriving DecidableEq, Repr

/-- Session resolution, lines 239-244: reuse the stored history when the
input's conversation id is known, otherwise mint `ulid.ulid_now()` and a
fresh `[{}, {}]` skeleton. -/
def resolveSession (st : AgentState) (input : ConvInput) (env : Env) : Session :=
  match input.conversation_id with
  | some cid =>
    match histGet st.history cid with
    | some msgs => ⟨cid, msgs, true⟩
    | none => ⟨env.freshId, [emptyContent, emptyContent], false⟩
  | none => ⟨env.freshId, [emptyContent, emptyContent], false⟩

/-- `part.function_call` of the first part: a function-call part yields its
payload; any other part yields the empty `FunctionCall` (proto default:
empty name, no args). -/
def partFunctionCall : Part → FunctionCall
  | Part.functionCall n a => ⟨n, a⟩
  | _ => ⟨"", []⟩

/-- A service name from an argument value (the `command` string is passed
directly as the service name). -/
def argToString : ArgVal → String
  | ArgVal.s v => v
  | ArgVal.i v => toString v

/-- The light dispatch, lines 291-296:
`hass.services.async_call("homeassistant", fc.args["command"],
\x7b"entity_id": "light.1234567890"\x7d, False)`. -/
def lightCall (command : ArgVal) : ServiceCallRec :=
  ⟨"homeassistant", argToString command,
    [("entity_id", ArgVal.s "light.1234567890")], false⟩

/-- The thermostat dispatch, lines 300-310: `climate.set_temperature` with
`target_temp_low = heat_temp`, `target_temp_high = cool_temp` on
`climate.thermostat`. -/
def climateCall (heat cool : ArgVal) : ServiceCallRec :=
  ⟨"climate", "set_temperature",
    [("target_temp_low", heat), ("target_temp_high", cool),
     ("entity_id", ArgVal.s "climate.thermostat")], false⟩

/-- The second `if fc.name == "set_heating_and_cooling"` block, lines
298-310, run after the light block with the calls dispatched so far. -/
def heatingDispatch (fc : FunctionCall) (acc : List ServiceCallRec) :
    Except RaisedExc (List ServiceCallRec) :=
  if fc.name = "set_heating_and_cooling" then
    match lookupArg fc.args "heat_temp", lookupArg fc.args "cool_temp" with
    | some heat, some cool => Except.ok (acc ++ [climateCall heat cool])
    | _, _ => Except.error RaisedExc.keyError
  else Except.ok acc

/-- The two sequential dispatch blocks, lines 289-310: first the
`control_light` block, then the `set_heating_and_cooling` block.  A missing
argument key raises `KeyError` (uncaught). -/
def dispatchActions (fc : FunctionCall) : Except RaisedExc (List ServiceCallRec) :=
  if fc.name = "control_light" then
    match lookupArg fc.args "command" with
    | some command => heatingDispatch fc [lightCall command]
    | none => Except.error RaisedExc.keyError
  else heatingDispatch fc []

/-- A printable rendering of a function call's argument map, standing in
for Python's `f"{fc.args}"`. -/
def argsRepr : List (String × ArgVal) → String
  | [] => ""
  | (k, v) :: rest =>
    k ++ ": " ++ argToString v ++ (if rest = [] then "" else ", ") ++ argsRepr rest

/-- The synthetic function-response content of the second send, lines
312-317. -/
def fcResponseContent (fc : FunctionCall) : Content :=
  ⟨"", [Part.functionResponse fc.name
    ("Running " ++ fc.name ++ " with " ++ argsRepr fc.args ++
      ". Command ran successfully!")]⟩

/-- `response.text`: the text of a candidate's parts, joined. -/
def contentText (c : Content) : String :=
  String.join (c.parts.map fun p =>
    match p with
    | Part.text s => s
    | _ => "")

/-- The user-visible template-failure reply, lines 250-254. -/
def templateErrorMsg (e : TemplateErr) : String :=
  "Sorry, I had a problem with my template: " ++ e.msg

/-- The user-visible remote-failure reply, lines 274-278. -/
def remoteErrorMsg (f : GenFailure) : String :=
  "Sorry, I had a problem talking to Google Generative AI: " ++ f.msg

/-- An `IntentResponse` carrying an error
(`async_set_error(UNKNOWN, msg)`). -/
def errorResponse (language msg : String) : IntentResponse :=
  ⟨language, some ("unknown", msg), none⟩

/-- An `IntentResponse` carrying speech (`async_set_speech(text)`). -/
def speechResponse (language text : String) : IntentResponse :=
  ⟨language, none, some text⟩

/-- One conversation turn: `GoogleGenerativeAIAgent.async_process`,
lines 160-328, as a function of the prior agent state, the external-call
oracle and the conversation input. -/
def async_process (st : AgentState) (env : Env) (input : ConvInput) : TurnOutput :=
  let sess := resolveSession st input env
  match env.renderedPrompt with
  | Except.error err =>
    -- lines 246-257: template failure, error result, nothing else happened
    ⟨ProcReturn.result ⟨errorResponse input.language (templateErrorMsg err), sess.cid⟩,
      st, [], []⟩
  | Except.ok prompt =>
    -- lines 259-260: overwrite slots 0 and 1; for an existing conversation
    -- this writes through to the stored list (Python aliasing)
    let messages := (sess.messages.set 0 (promptContent prompt)).set 1 ackContent
    let st1 : AgentState :=
      if sess.isExisting then ⟨histSet st.history sess.cid messages⟩ else st
    match env.send1 with
    | Except.error f =>
      -- lines 267-281: recognized remote failure, error result
      ⟨ProcReturn.result ⟨errorResponse input.language (remoteErrorMsg f), sess.cid⟩,
        st1, [], [SentMsg.userText input.text]⟩
    | Except.ok resp1 =>
      match resp1.candidates with
      | [] =>
        -- `chat_response.parts` / `chat.history` index an empty candidate
        -- list before the history store: IndexError propagates
        ⟨ProcReturn.raised RaisedExc.indexError, st1, [], [SentMsg.userText input.text]⟩
      | c0 :: _ =>
        -- line 284: store the updated transcript
        let hist1 := messages ++ [userContent input.text, c0.content]
        let st2 : AgentState := ⟨histSet st1.history sess.cid hist1⟩
        match c0.content.parts with
        | [] =>
          -- line 286 indexes `parts[0]`: IndexError propagates
          ⟨ProcReturn.raised RaisedExc.indexError, st2, [], [SentMsg.userText input.text]⟩
        | p0 :: _ =>
          let fc := partFunctionCall p0
          match dispatchActions fc with
          | Except.error e =>
            ⟨ProcReturn.raised e, st2, [], [SentMsg.userText input.text]⟩
          | Except.ok calls =>
            -- lines 312-317: unconditional second send of the synthetic
            -- function response; its exceptions are NOT caught
            match env.send2 with
            | Except.error f =>
              ⟨ProcReturn.raised (RaisedExc.genFailure f), st2, calls,
                [SentMsg.userText input.text, SentMsg.content (fcResponseContent fc)]⟩
            | Except.ok resp2 =>
              match resp2.candidates with
              | [] =>
                ⟨ProcReturn.raised RaisedExc.indexError, st2, calls,
                  [SentMsg.userText input.text, SentMsg.content (fcResponseContent fc)]⟩
              | d0 :: _ =>
                -- lines 324-328: final speech from the second reply
                ⟨ProcReturn.result
                    ⟨speechResponse input.language (contentText d0.content), sess.cid⟩,
                  st2, calls,
                  [SentMsg.userText input.text, SentMsg.content (fcResponseContent fc)]⟩

/-! ## Helper lemmas -/

theorem histGet_histSet_self (h : List (String × List Content)) (k : String)
    (v : List Content) : histGet (histSet h k v) k = some v := by
  induction h with
  | nil => simp [histSet, histGet]
  | cons hd tl ih =>
    obtain ⟨k', w⟩ := hd
    by_cases hk : k' = k
    · simp [histSet, hk, histGet]
    · simp [histSet, hk, histGet, ih]

/-- `True` iff the turn starts a new session: the input's conversation id is
absent or not a key of the store. -/
def isNewTurn (st : AgentState) (input : ConvInput) : Bool :=
  match input.conversation_id with
  | some c => (histGet st.history c).isNone
  | none => true

theorem resolveSession_of_new (st : AgentState) (input : ConvInput) (env : Env)
    (h : isNewTurn st input = true) :
    resolveSession st input env = ⟨env.freshId, [emptyContent, emptyContent], false⟩ := by
  unfold isNewTurn at h
  unfold resolveSession
  cases hin : input.conversation_id with
  | none => rfl
  | some c =>
    rw [hin] at h
    simp only [Option.isNone_iff_eq_none] at h
    simp [h]

/-! ## C3: template rendering failure -/

/-- C3: for every turn where rendering the system prompt template fails,
`async_process` returns an error response immediately: no chat message is
sent to the remote model, no service call is dispatched, the agent state is
untouched, and the returned conversation id is the input's conversation id
when it names a stored session, or the freshly minted id for a first
turn. -/
theorem c3_template_failure_returns_error_without_remote_call
    (st : AgentState) (env : Env) (input : ConvInput) (err : TemplateErr)
    (h : env.renderedPrompt = Except.error err) :
    async_process st env input =
      ⟨ProcReturn.result ⟨errorResponse input.language (templateErrorMsg err),
          (resolveSession st input env).cid⟩, st, [], []⟩ ∧
    (∀ c msgs, input.conversation_id = some c → histGet st.history c = some msgs →
      (resolveSession st input env).cid = c) ∧
    (input.conversation_id = none → (resolveSession st input env).cid = env.freshId) := by
  refine ⟨by simp [async_process, h], ?_, ?_⟩
  · intro c msgs hc hm
    simp [resolveSession, hc, hm]
  · intro hc
    simp [resolveSession, hc]

def c3st : AgentState := ⟨[]⟩

def c3env : Env :=
  ⟨"01FRESH", Except.error ⟨"boom"⟩,
    Except.error ⟨GenFailureKind.clientError, "x"⟩,
    Except.error ⟨GenFailureKind.clientError, "x"⟩⟩

def c3input : ConvInput := ⟨none, "hello", "en"⟩

/-- C3 witness: a concrete first turn whose template rendering fails. -/
theorem c3_concrete_instance :
    async_process c3st c3env c3input =
      ⟨ProcReturn.result ⟨errorResponse "en" (templateErrorMsg ⟨"boom"⟩), "01FRESH"⟩,
        c3st, [], []⟩ :=
  (c3_template_failure_returns_error_without_remote_call c3st c3env c3input ⟨"boom"⟩ rfl).1

/-! ## C1: first remote send fails -/

/-- C1 (amended): for every turn whose first remote send raises a
recognized failure, `async_process` returns a localized error response with
the preserved (or freshly minted) conversation id and dispatches nothing;
the stored history is unchanged for a first turn, but for an existing
conversation the stored list's first two slots have already been
overwritten in place (Python aliasing of `messages`) with the freshly
rendered prompt and the acknowledgement. -/
theorem c1_remote_failure_error_response_and_slot_overwrite
    (st : AgentState) (env : Env) (input : ConvInput) (prompt : String)
    (f : GenFailure)
    (hp : env.renderedPrompt = Except.ok prompt)
    (hs : env.send1 = Except.error f) :
    (async_process st env input).result =
      ProcReturn.result ⟨errorResponse input.language (remoteErrorMsg f),
        (resolveSession st input env).cid⟩ ∧
    (async_process st env input).calls = [] ∧
    (async_process st env input).state.history =
      (if (resolveSession st input env).isExisting then
         histSet st.history (resolveSession st input env).cid
           (((resolveSession st input env).messages.set 0 (promptContent prompt)).set 1
             ackContent)
       else st.history) ∧
    (∀ c msgs, input.conversation_id = some c → histGet st.history c = some msgs →
      (resolveSession st input env).cid = c) ∧
    (isNewTurn st input = true → (async_process st env input).state = st) := by
  refine ⟨?_, ?_, ?_, ?_, ?_⟩
  · simp [async_process, hp, hs]
  · simp [async_process, hp, hs]
  · by_cases he : (resolveSession st input env).isExisting
    · simp [async_process, hp, hs, he]
    · simp [async_process, hp, hs, he]
  · intro c msgs hc hm
    simp [resolveSession, hc, hm]
  · intro hnew
    simp [async_process, hp, hs, resolveSession_of_new st input env hnew]

def c1st : AgentState :=
  ⟨[("01ABC", [⟨"user", [Part.text "old prompt"]⟩, ackContent,
      ⟨"user", [Part.text "hi"]⟩, ⟨"model", [Part.text "hello"]⟩])]⟩

def c1env : Env :=
  ⟨"01NEW", Except.ok "new prompt",
    Except.error ⟨GenFailureKind.clientError, "503"⟩,
    Except.error ⟨GenFailureKind.clientError, "503"⟩⟩

def c1input : ConvInput := ⟨some "01ABC", "hi again", "en"⟩

/-- C1 counterexample: a continuing conversation whose first remote send
fails with a client error.  The localized error response is returned with
the input's conversation id, yet the stored history under that id is NOT
unchanged: its first slot now holds the freshly rendered prompt instead of
the previously stored one. -/
theorem c1_counterexample_existing_history_mutated :
    (async_process c1st c1env c1input).result =
      ProcReturn.result
        ⟨errorResponse "en" (remoteErrorMsg ⟨GenFailureKind.clientError, "503"⟩),
          "01ABC"⟩ ∧
    histGet (async_process c1st c1env c1input).state.history "01ABC" ≠
      histGet c1st.history "01ABC" := by
  refine ⟨rfl, ?_⟩
  decide

/-- C1 witness: a concrete first turn (empty store) whose first remote
send fails; the history is untouched and the fresh id is returned. -/
theorem c1_concrete_instance :
    (async_process c3st c1env c3input).result =
      ProcReturn.result
        ⟨errorResponse "en" (remoteErrorMsg ⟨GenFailureKind.clientError, "503"⟩),
          "01NEW"⟩ ∧
    (async_process c3st c1env c3input).state = c3st := by
  have h := c1_remote_failure_error_response_and_slot_overwrite c3st c1env c3input
    "new prompt" ⟨GenFailureKind.clientError, "503"⟩ rfl rfl
  exact ⟨h.1, h.2.2.2.2 rfl⟩

/-- The host service calls of a turn that reaches the dispatch blocks are
exactly the `dispatchActions` of the function call extracted from the first
part of the first candidate, whatever the second send does. -/
theorem async_process_calls_of_ok
    (st : AgentState) (env : Env) (input : ConvInput) (prompt : String)
    (r1 : Response) (c0 : Candidate) (crest : List Candidate)
    (p0 : Part) (ps : List Part) (calls : List ServiceCallRec)
    (hp : env.renderedPrompt = Except.ok prompt)
    (h1 : env.send1 = Except.ok r1)
    (hc : r1.candidates = c0 :: crest)
    (hparts : c0.content.parts = p0 :: ps)
    (hd : dispatchActions (partFunctionCall p0) = Except.ok calls) :
    (async_process st env input).calls = calls := by
  cases hs2 : env.send2 with
  | error f => simp [async_process, hp, h1, hc, hparts, hd, hs2]
  | ok r2 =>
    cases hc2 : r2.candidates with
    | nil => simp [async_process, hp, h1, hc, hparts, hd, hs2, hc2]
    | cons d0 drest => simp [async_process, hp, h1, hc, hparts, hd, hs2, hc2]

/-! ## C2: turns without a function call -/

/-- C2 (amended): for every turn whose model response contains no function
call (the first part of the first candidate is plain text), no host action
is dispatched, but a second synthetic function-response message — carrying
the proto-default empty function name — is still sent to the remote model,
and the final response text is the model's reply to that second message,
not its direct text reply to the user message. -/
theorem c2_no_function_call_still_sends_second_message
    (st : AgentState) (env : Env) (input : ConvInput) (prompt : String)
    (r1 : Response) (c0 : Candidate) (crest : List Candidate)
    (s : String) (ps : List Part)
    (r2 : Response) (d0 : Candidate) (drest : List Candidate)
    (hp : env.renderedPrompt = Except.ok prompt)
    (h1 : env.send1 = Except.ok r1)
    (hc : r1.candidates = c0 :: crest)
    (hparts : c0.content.parts = Part.text s :: ps)
    (h2 : env.send2 = Except.ok r2)
    (hc2 : r2.candidates = d0 :: drest) :
    (async_process st env input).calls = [] ∧
    (async_process st env input).sent =
      [SentMsg.userText input.text, SentMsg.content (fcResponseContent ⟨"", []⟩)] ∧
    (async_process st env input).result =
      ProcReturn.result ⟨speechResponse input.language (contentText d0.content),
        (resolveSession st input env).cid⟩ := by
  have hd : dispatchActions ⟨"", []⟩ = Except.ok [] := rfl
  refine ⟨?_, ?_, ?_⟩ <;>
    simp [async_process, hp, h1, hc, hparts, h2, hc2, partFunctionCall, hd]

/-- A one-candidate response whose single part is plain text. -/
def fxRespText (s : String) : Response := ⟨[⟨⟨"model", [Part.text s]⟩⟩]⟩

/-- A one-candidate response whose single part is a function call. -/
def fxRespFC (name : String) (args : List (String × ArgVal)) : Response :=
  ⟨[⟨⟨"model", [Part.functionCall name args]⟩⟩]⟩

def c2st : AgentState := ⟨[]⟩

def c2env : Env :=
  ⟨"01NEW", Except.ok "sys", Except.ok (fxRespText "direct answer"),
    Except.ok (fxRespText "second answer")⟩

def c2input : ConvInput := ⟨none, "hello", "en"⟩

/-- C2 counterexample: a turn whose model response contains no function
call (its only part is the plain text "direct answer").  The claimed
behaviour fails: a second message is still sent to the remote model (two
sends in the turn), and the final response text is the second reply
"second answer", not the model's direct text "direct answer". -/
theorem c2_counterexample_second_send_overrides_direct_text :
    c2env.send1 = Except.ok (fxRespText "direct answer") ∧
    partFunctionCall (Part.text "direct answer") = ⟨"", []⟩ ∧
    (async_process c2st c2env c2input).result =
      ProcReturn.result ⟨speechResponse "en" "second answer", "01NEW"⟩ ∧
    (async_process c2st c2env c2input).sent.length = 2 ∧
    ("second answer" : String) ≠ "direct answer" :=
  ⟨rfl, rfl, rfl, rfl, by decide⟩

/-- C2 witness: the amended statement at the concrete turn of the
counterexample environment. -/
theorem c2_concrete_instance :
    (async_process c2st c2env c2input).calls = [] ∧
    (async_process c2st c2env c2input).sent =
      [SentMsg.userText "hello", SentMsg.content (fcResponseContent ⟨"", []⟩)] ∧
    (async_process c2st c2env c2input).result =
      ProcReturn.result ⟨speechResponse "en" "second answer", "01NEW"⟩ :=
  c2_no_function_call_still_sends_second_message c2st c2env c2input "sys"
    (fxRespText "direct answer") ⟨⟨"model", [Part.text "direct answer"]⟩⟩ []
    "direct answer" [] (fxRespText "second answer")
    ⟨⟨"model", [Part.text "second answer"]⟩⟩ [] rfl rfl rfl rfl rfl rfl

/-! ## C4: the thermostat dispatch -/

/-- C4: for every model response whose acted-upon function call (first part
of the first candidate) is `set_heating_and_cooling` with `cool_temp = 77`
and `heat_temp = 74`, exactly one host action is dispatched in the turn:
service `set_temperature` in domain `climate` with
`target_temp_low = 74`, `target_temp_high = 77` on `climate.thermostat`. -/
theorem c4_set_heating_and_cooling_dispatch
    (st : AgentState) (env : Env) (input : ConvInput) (prompt : String)
    (r1 : Response) (c0 : Candidate) (crest : List Candidate)
    (args : List (String × ArgVal)) (ps : List Part)
    (hp : env.renderedPrompt = Except.ok prompt)
    (h1 : env.send1 = Except.ok r1)
    (hc : r1.candidates = c0 :: crest)
    (hparts : c0.content.parts =
      Part.functionCall "set_heating_and_cooling" args :: ps)
    (hheat : lookupArg args "heat_temp" = some (ArgVal.i 74))
    (hcool : lookupArg args "cool_temp" = some (ArgVal.i 77)) :
    (async_process st env input).calls =
      [⟨"climate", "set_temperature",
        [("target_temp_low", ArgVal.i 74), ("target_temp_high", ArgVal.i 77),
         ("entity_id", ArgVal.s "climate.thermostat")], false⟩] := by
  have hd : dispatchActions ⟨"set_heating_and_cooling", args⟩ =
      Except.ok [climateCall (ArgVal.i 74) (ArgVal.i 77)] := by
    simp [dispatchActions, heatingDispatch, hheat, hcool]
  exact async_process_calls_of_ok st env input prompt r1 c0 crest _ ps _
    hp h1 hc hparts hd

def c4env : Env :=
  ⟨"01NEW", Except.ok "sys",
    Except.ok (fxRespFC "set_heating_and_cooling"
      [("cool_temp", ArgVal.i 77), ("heat_temp", ArgVal.i 74)]),
    Except.ok (fxRespText "done")⟩

/-- C4 witness: the concrete turn with `cool_temp=77, heat_temp=74`. -/
theorem c4_concrete_instance :
    (async_process c2st c4env c2input).calls =
      [⟨"climate", "set_temperature",
        [("target_temp_low", ArgVal.i 74), ("target_temp_high", ArgVal.i 77),
         ("entity_id", ArgVal.s "climate.thermostat")], false⟩] :=
  c4_set_heating_and_cooling_dispatch c2st c4env c2input "sys" _ _ []
    [("cool_temp", ArgVal.i 77), ("heat_temp", ArgVal.i 74)] []
    rfl rfl rfl rfl rfl rfl

/-! ## C5: the light dispatch -/

/-- C5: for every model response whose acted-upon function call (first part
of the first candidate) is `control_light` with `command = "turn_on"`, the
turn's dispatched host actions are exactly the single call of service
`turn_on` in domain `homeassistant` on `light.1234567890` — in particular
no other entity is targeted by any dispatch of the turn. -/
theorem c5_control_light_turn_on_dispatch
    (st : AgentState) (env : Env) (input : ConvInput) (prompt : String)
    (r1 : Response) (c0 : Candidate) (crest : List Candidate)
    (args : List (String × ArgVal)) (ps : List Part)
    (hp : env.renderedPrompt = Except.ok prompt)
    (h1 : env.send1 = Except.ok r1)
    (hc : r1.candidates = c0 :: crest)
    (hparts : c0.content.parts = Part.functionCall "control_light" args :: ps)
    (hcmd : lookupArg args "command" = some (ArgVal.s "turn_on")) :
    (async_process st env input).calls =
      [⟨"homeassistant", "turn_on",
        [("entity_id", ArgVal.s "light.1234567890")], false⟩] := by
  have hd : dispatchActions ⟨"control_light", args⟩ =
      Except.ok [lightCall (ArgVal.s "turn_on")] := by
    simp [dispatchActions, heatingDispatch, hcmd]
  exact async_process_calls_of_ok st env input prompt r1 c0 crest _ ps _
    hp h1 hc hparts hd

def c5env : Env :=
  ⟨"01NEW", Except.ok "sys",
    Except.ok (fxRespFC "control_light" [("command", ArgVal.s "turn_on")]),
    Except.ok (fxRespText "done")⟩

/-- C5 witness: the concrete turn with `command = "turn_on"`. -/
theorem c5_concrete_instance :
    (async_process c2st c5env c2input).calls =
      [⟨"homeassistant", "turn_on",
        [("entity_id", ArgVal.s "light.1234567890")], false⟩] :=
  c5_control_light_turn_on_dispatch c2st c5env c2input "sys" _ _ []
    [("command", ArgVal.s "turn_on")] [] rfl rfl rfl rfl rfl

/-! ## C6: history stored after a successful new-session turn -/

/-- C6: for every new conversation id, after one successful turn the stored
session history under the freshly minted id is exactly, in order: the
rendered system prompt as a user-role message, the acknowledgement as a
model-role message, the user's text, and the model's reply (the first
candidate's content of the first send) — and nothing else.  The external
chat client is taken at the spec's abstraction: the transcript persisted at
the single mutation point is the history value returned by the first
send. -/
theorem c6_new_session_stores_prompt_ack_exchange
    (st : AgentState) (env : Env) (input : ConvInput) (prompt : String)
    (r1 : Response) (c0 : Candidate) (crest : List Candidate)
    (p0 : Part) (ps : List Part) (calls : List ServiceCallRec)
    (r2 : Response) (d0 : Candidate) (drest : List Candidate)
    (hnew : isNewTurn st input = true)
    (hp : env.renderedPrompt = Except.ok prompt)
    (h1 : env.send1 = Except.ok r1)
    (hc : r1.candidates = c0 :: crest)
    (hparts : c0.content.parts = p0 :: ps)
    (hd : dispatchActions (partFunctionCall p0) = Except.ok calls)
    (h2 : env.send2 = Except.ok r2)
    (hc2 : r2.candidates = d0 :: drest) :
    histGet (async_process st env input).state.history env.freshId =
      some [promptContent prompt, ackContent, userContent input.text, c0.content] ∧
    (async_process st env input).result =
      ProcReturn.result ⟨speechResponse input.language (contentText d0.content),
        env.freshId⟩ := by
  have hres := resolveSession_of_new st input env hnew
  constructor
  · simp [async_process, hres, hp, h1, hc, hparts, hd, h2, hc2, histGet_histSet_self]
  · simp [async_process, hres, hp, h1, hc, hparts, hd, h2, hc2]

/-- C6 witness: a fresh session, a `control_light` turn-on reply, and a
successful second send. -/
theorem c6_concrete_instance :
    histGet (async_process c2st c5env c2input).state.history "01NEW" =
      some [promptContent "sys", ackContent, userContent "hello",
        ⟨"model", [Part.functionCall "control_light" [("command", ArgVal.s "turn_on")]]⟩] ∧
    (async_process c2st c5env c2input).result =
      ProcReturn.result ⟨speechResponse "en" "done", "01NEW"⟩ :=
  c6_new_session_stores_prompt_ack_exchange c2st c5env c2input "sys" _ _ [] _ []
    [lightCall (ArgVal.s "turn_on")] _ _ [] rfl rfl rfl rfl rfl rfl rfl rfl

/-! ## C7: at most one function call is acted upon -/

/-- The function call the turn acts on: the one extracted from the first
content part of the first candidate of the first send's response, when all
of these exist. -/
def firstPartFC (env : Env) : Option FunctionCall :=
  match env.send1 with
  | Except.error _ => none
  | Except.ok r =>
    match r.candidates with
    | [] => none
    | c :: _ =>
      match c.content.parts with
      | [] => none
      | p :: _ => some (partFunctionCall p)

theorem dispatchActions_length (fc : FunctionCall) (l : List ServiceCallRec)
    (h : dispatchActions fc = Except.ok l) : l.length ≤ 1 := by
  unfold dispatchActions heatingDispatch at h
  by_cases h1 : fc.name = "control_light"
  · have h2 : ¬ fc.name = "set_heating_and_cooling" := by rw [h1]; decide
    rw [if_pos h1] at h
    cases hcmd : lookupArg fc.args "command" with
    | none => rw [hcmd] at h; cases h
    | some v =>
      rw [hcmd] at h
      simp [h2] at h
      subst h
      simp
  · rw [if_neg h1] at h
    by_cases h2 : fc.name = "set_heating_and_cooling"
    · rw [if_pos h2] at h
      cases hh : lookupArg fc.args "heat_temp" with
      | none => rw [hh] at h; simp at h
      | some heat =>
        cases hcc : lookupArg fc.args "cool_temp" with
        | none => rw [hh, hcc] at h; simp at h
        | some cool =>
          rw [hh, hcc] at h
          simp at h
          subst h
          simp
    · rw [if_neg h2] at h
      simp at h
      subst h
      simp

/-- C7: in every turn at most one host action is dispatched, and any
dispatched action arises from the function call extracted from the first
content part of the first candidate of the first send's response; function
calls appearing in any other candidate or part are never dispatched. -/
theorem c7_at_most_one_dispatch_from_first_part
    (st : AgentState) (env : Env) (input : ConvInput) :
    (async_process st env input).calls.length ≤ 1 ∧
    ((async_process st env input).calls = [] ∨
      ∃ fc, firstPartFC env = some fc ∧
        dispatchActions fc = Except.ok (async_process st env input).calls) := by
  cases hr : env.renderedPrompt with
  | error e => simp [async_process, hr]
  | ok prompt =>
    cases hs1 : env.send1 with
    | error f => simp [async_process, hr, hs1]
    | ok r1 =>
      cases hc : r1.candidates with
      | nil => simp [async_process, hr, hs1, hc]
      | cons c0 crest =>
        cases hparts : c0.content.parts with
        | nil => simp [async_process, hr, hs1, hc, hparts]
        | cons p0 ps =>
          cases hd : dispatchActions (partFunctionCall p0) with
          | error e => simp [async_process, hr, hs1, hc, hparts, hd]
          | ok calls =>
            have hlen := dispatchActions_length _ _ hd
            have hcalls := async_process_calls_of_ok st env input prompt r1 c0
              crest p0 ps calls hr hs1 hc hparts hd
            refine ⟨by rw [hcalls]; exact hlen,
              Or.inr ⟨partFunctionCall p0, ?_, ?_⟩⟩
            · simp [firstPartFC, hs1, hc, hparts]
            · rw [hcalls]; exact hd

/-! ## C8: the control_light tool declaration and the dispatched service -/

/-- `glm.Type` values used by the two declarations. -/
inductive GlmType where
  | object
  | string
  | integer
deriving DecidableEq, Repr

/-- A leaf parameter schema, mirroring the `glm.Schema` values used for
properties: a type and the `enum` field (unset — i.e. empty — in both
declarations of the source). -/
structure ParamSchema where
  type : GlmType
  enumVals : List String
deriving DecidableEq, Repr

/-- The object-typed parameters schema of a declaration. -/
structure ObjectSchema where
  type : GlmType
  properties : List (String × ParamSchema)
  required : List String
deriving DecidableEq, Repr

/-- `glm.FunctionDeclaration`. -/
structure FunctionDeclaration where
  name : String
  description : String
  parameters : ObjectSchema
deriving DecidableEq, Repr

/-- `glm.Tool`. -/
structure Tool where
  function_declarations : List FunctionDeclaration
deriving DecidableEq, Repr

/-- Property lookup in a parameters schema. -/
def lookupProp : List (String × ParamSchema) → String → Option ParamSchema
  | [], _ => none
  | (k, v) :: rest, key => if k = key then some v else lookupProp rest key

/-- The `control_light` declaration, lines 165-189.  Its `command`
parameter is a plain `glm.Schema(type=glm.Type.STRING)`: the values
`turn_on` / `turn_off` appear only in the prose description, and no `enum`
constraint is declared. -/
def control_light_decl : FunctionDeclaration :=
  ⟨"control_light",
    "Turn a light on or off.\n\nArgs:\n    command: Whether to \"turn_on\" " ++
      "or \"turn_off\" the light.\n\nExample input: Light on\n" ++
      "Example output: \x7b\"command\": \"turn_on\"\x7d\n\n" ++
      "Example input: Light off\nExample output: \x7b\"command\": \"turn_off\"\x7d",
    ⟨GlmType.object, [("command", ⟨GlmType.string, []⟩)], ["command"]⟩⟩

/-- The `control_light` tool, lines 165-189. -/
def control_light : Tool := ⟨[control_light_decl]⟩

/-- The `set_heating_and_cooling` declaration, lines 191-217. -/
def set_heating_and_cooling_decl : FunctionDeclaration :=
  ⟨"set_heating_and_cooling",
    "Set the heat and cooling temperatures of the thermostat.\n\nArgs:\n" ++
      "    cool_temp: The cool temperature to set to in °F. Must be set to " ++
      "the heat temp plus 3.\n    heat_temp: The heat temperature to set to " ++
      "in °F. Must be set to the cool temp minus 3.\n\n" ++
      "Example input: Set the heat to 74 degrees.\n" ++
      "Example output: \x7b\"cool_temp\": 77, \"heat_temp\": 74\x7d\n\n" ++
      "Example input: Set the cooling to 73 degrees.\n" ++
      "Example output: \x7b\"cool_temp\": 73, \"heat_temp\": 69\x7d",
    ⟨GlmType.object,
      [("cool_temp", ⟨GlmType.integer, []⟩), ("heat_temp", ⟨GlmType.integer, []⟩)],
      ["cool_temp", "heat_temp"]⟩⟩

/-- The `set_heating_and_cooling` tool, lines 191-217. -/
def set_heating_and_cooling : Tool := ⟨[set_heating_and_cooling_decl]⟩

/-- C8 (amended): the `control_light` declaration types its `command`
parameter as a plain string with no enum constraint, and the host service
name invoked under domain `homeassistant` is exactly whatever string the
model supplies as `command` — not necessarily `turn_on` or `turn_off`. -/
theorem c8_command_schema_unconstrained_and_passed_through
    (st : AgentState) (env : Env) (input : ConvInput) (prompt : String)
    (r1 : Response) (c0 : Candidate) (crest : List Candidate)
    (args : List (String × ArgVal)) (ps : List Part) (v : String)
    (hp : env.renderedPrompt = Except.ok prompt)
    (h1 : env.send1 = Except.ok r1)
    (hc : r1.candidates = c0 :: crest)
    (hparts : c0.content.parts = Part.functionCall "control_light" args :: ps)
    (hcmd : lookupArg args "command" = some (ArgVal.s v)) :
    lookupProp control_light_decl.parameters.properties "command" =
      some ⟨GlmType.string, []⟩ ∧
    (async_process st env input).calls =
      [⟨"homeassistant", v, [("entity_id", ArgVal.s "light.1234567890")], false⟩] := by
  refine ⟨rfl, ?_⟩
  have hd : dispatchActions ⟨"control_light", args⟩ =
      Except.ok [lightCall (ArgVal.s v)] := by
    simp [dispatchActions, heatingDispatch, hcmd]
  exact async_process_calls_of_ok st env input prompt r1 c0 crest _ ps _
    hp h1 hc hparts hd

def c8env : Env :=
  ⟨"01NEW", Except.ok "sys",
    Except.ok (fxRespFC "control_light" [("command", ArgVal.s "restart")]),
    Except.ok (fxRespText "done")⟩

/-- C8 counterexample: the declared schema of `command` carries no enum
constraint, and a `control_light` call with `command = "restart"` dispatches
the host service `homeassistant.restart`, which is neither `turn_on` nor
`turn_off`. -/
theorem c8_counterexample_command_restart :
    lookupProp control_light_decl.parameters.properties "command" =
      some ⟨GlmType.string, []⟩ ∧
    (async_process c2st c8env c2input).calls =
      [⟨"homeassistant", "restart",
        [("entity_id", ArgVal.s "light.1234567890")], false⟩] ∧
    ("restart" : String) ≠ "turn_on" ∧ ("restart" : String) ≠ "turn_off" :=
  ⟨rfl, rfl, by decide, by decide⟩

/-- C8 witness: the amended statement at the `command = "restart"` turn. -/
theorem c8_concrete_instance :
    lookupProp control_light_decl.parameters.properties "command" =
      some ⟨GlmType.string, []⟩ ∧
    (async_process c2st c8env c2input).calls =
      [⟨"homeassistant", "restart",
        [("entity_id", ArgVal.s "light.1234567890")], false⟩] :=
  c8_command_schema_unconstrained_and_passed_through c2st c8env c2input "sys"
    _ _ [] [("command", ArgVal.s "restart")] [] "restart" rfl rfl rfl rfl rfl

/-! ## C9: failures of the second send are not caught -/

/-- C9: a recognized failure raised by the second remote send (the
synthetic function-response message) is not caught by `async_process`: the
exception propagates to the caller and no user-visible error response is
produced, even though the stored session history under the turn's
conversation id has already been replaced with the updated transcript
earlier in the turn. -/
theorem c9_second_send_failure_propagates
    (st : AgentState) (env : Env) (input : ConvInput) (prompt : String)
    (r1 : Response) (c0 : Candidate) (crest : List Candidate)
    (p0 : Part) (ps : List Part) (calls : List ServiceCallRec) (f : GenFailure)
    (hp : env.renderedPrompt = Except.ok prompt)
    (h1 : env.send1 = Except.ok r1)
    (hc : r1.candidates = c0 :: crest)
    (hparts : c0.content.parts = p0 :: ps)
    (hd : dispatchActions (partFunctionCall p0) = Except.ok calls)
    (h2 : env.send2 = Except.error f) :
    (async_process st env input).result =
      ProcReturn.raised (RaisedExc.genFailure f) ∧
    histGet (async_process st env input).state.history
        (resolveSession st input env).cid =
      some ((((resolveSession st input env).messages.set 0
          (promptContent prompt)).set 1 ackContent) ++
        [userContent input.text, c0.content]) := by
  constructor <;>
    simp [async_process, hp, h1, hc, hparts, hd, h2, histGet_histSet_self]

def c9env : Env :=
  ⟨"01NEW", Except.ok "sys",
    Except.ok (fxRespFC "control_light" [("command", ArgVal.s "turn_on")]),
    Except.error ⟨GenFailureKind.blockedPrompt, "blocked"⟩⟩

/-- C9 witness: a concrete turn whose second send hits a safety block — the
exception propagates while the stored history already holds the turn's
transcript. -/
theorem c9_concrete_instance :
    (async_process c2st c9env c2input).result =
      ProcReturn.raised (RaisedExc.genFailure ⟨GenFailureKind.blockedPrompt, "blocked"⟩) ∧
    histGet (async_process c2st c9env c2input).state.history "01NEW" =
      some [promptContent "sys", ackContent, userContent "hello",
        ⟨"model", [Part.functionCall "control_light" [("command", ArgVal.s "turn_on")]]⟩] :=
  c9_second_send_failure_propagates c2st c9env c2input "sys" _ _ [] _ []
    [lightCall (ArgVal.s "turn_on")] ⟨GenFailureKind.blockedPrompt, "blocked"⟩
    rfl rfl rfl rfl rfl rfl

/-! ## C10: error-ending first turns orphan the fresh id -/

/-- C10: for every first turn of a new conversation that ends in an error
response — a prompt render failure or a first remote-send failure — the
freshly minted conversation id is returned to the caller, but no history
entry is created under it (the state is unchanged); a subsequent turn that
supplies that id does not find it in the store and takes the new-session
branch, minting yet another fresh id. -/
theorem c10_error_first_turn_orphans_fresh_id
    (st : AgentState) (env : Env) (input : ConvInput)
    (hnew : isNewTurn st input = true)
    (hfresh : histGet st.history env.freshId = none)
    (herr : (∃ e, env.renderedPrompt = Except.error e) ∨
            (∃ p f, env.renderedPrompt = Except.ok p ∧ env.send1 = Except.error f)) :
    (∃ ir, (async_process st env input).result =
        ProcReturn.result ⟨ir, env.freshId⟩ ∧ ir.error ≠ none) ∧
    (async_process st env input).state = st ∧
    histGet (async_process st env input).state.history env.freshId = none ∧
    (∀ (env2 : Env) (t2 l2 : String),
      resolveSession (async_process st env input).state ⟨some env.freshId, t2, l2⟩ env2 =
        ⟨env2.freshId, [emptyContent, emptyContent], false⟩) := by
  have hres := resolveSession_of_new st input env hnew
  have hstate : (async_process st env input).state = st := by
    rcases herr with ⟨e, he⟩ | ⟨p, f, hp, hf⟩
    · simp [async_process, he]
    · simp [async_process, hp, hf, hres]
  refine ⟨?_, hstate, ?_, ?_⟩
  · rcases herr with ⟨e, he⟩ | ⟨p, f, hp, hf⟩
    · exact ⟨errorResponse input.language (templateErrorMsg e),
        by simp [async_process, he, hres], by simp [errorResponse]⟩
    · exact ⟨errorResponse input.language (remoteErrorMsg f),
        by simp [async_process, hp, hf, hres], by simp [errorResponse]⟩
  · rw [hstate]; exact hfresh
  · intro env2 t2 l2
    rw [hstate]
    simp [resolveSession, hfresh]

/-- C10 witness: the template-failure first turn of the C3 environment. -/
theorem c10_concrete_instance :
    (∃ ir, (async_process c3st c3env c3input).result =
        ProcReturn.result ⟨ir, "01FRESH"⟩ ∧ ir.error ≠ none) ∧
    (async_process c3st c3env c3input).state = c3st ∧
    histGet (async_process c3st c3env c3input).state.history "01FRESH" = none ∧
    (∀ (env2 : Env) (t2 l2 : String),
      resolveSession (async_process c3st c3env c3input).state ⟨some "01FRESH", t2, l2⟩ env2 =
        ⟨env2.freshId, [emptyContent, emptyContent], false⟩) :=
  c10_error_first_turn_orphans_fresh_id c3st c3env c3input rfl rfl
    (Or.inl ⟨⟨"boom"⟩, rfl⟩)

end GeminiFC
